import Mathlib

/-
Verification of the AppJail connector and the FreeBSD service/sysrc
operations of this pyinfra fork, via a shallow embedding of the Python
sources in Lean 4.

Embedded sources:
  * pyinfra/connectors/appjail.py   (AppJailConnector)
  * pyinfra/operations/freebsd/service.py
  * pyinfra/operations/freebsd/sysrc.py

Collaborator code that the connector calls but that is not part of the
embedded sources (LocalConnector.run_shell_command, local.shell,
extract_control_arguments, make_unix_command_for_host, StringCommand /
QuoteString serialization) is modelled from the specification, with doc
comments marking each such definition.
-/

namespace Pyinfra

/-- A token of a `StringCommand`: either a raw string inserted verbatim, a
`QuoteString` wrapping a plain string, a `QuoteString` wrapping a nested
`StringCommand` (a list of tokens), a `QuoteString` wrapping a Python list
object, or a `QuoteString` wrapping Python `None` (the latter two arise in
the `SRV_CUSTOM` branch of the service operation). -/
inductive Token where
  | lit (s : String)
  | quoted (s : String)
  | quotedCmd (c : List Token)
  | quotedList (l : List String)
  | quotedNone
deriving Repr

/-- The value attached to one execution-option key. -/
inductive ArgValue where
  | ints (l : List Int)
  | natV (n : Nat)
  | boolV (b : Bool)
  | strV (s : String)
deriving Repr, DecidableEq

/-- Execution options (`**arguments` in the Python sources) as an ordered
key/value mapping. -/
abbrev Arguments := List (String × ArgValue)

/-- First value bound to a key, mirroring Python dict lookup. -/
def lookupArg : Arguments → String → Option ArgValue
  | [], _ => Option.none
  | kv :: rest, k => if kv.1 = k then some kv.2 else lookupArg rest k

/-- Captured output of a child process: stdout and stderr as line
sequences plus the raw exit code. -/
structure CommandOutput where
  stdout : List String
  stderr : List String
  exitCode : Int
deriving Repr, DecidableEq

/-- The option keys owned by the execution layer (success-exit-code set,
timeout, pty allocation, stdin stream). -/
def control_argument_keys : List String :=
  ["_success_exit_codes", "_timeout", "_get_pty", "_stdin"]

/-- Modelled from the spec: `extract_control_arguments` lives in
`pyinfra/connectors/util.py`, which is not among the embedded sources.
Per section 4.2 it splits an options mapping into two disjoint mappings:
the control options owned by the execution layer and the remainder.  The
Python function returns the extracted control options and pops them from
the caller's mapping in place; here both halves are returned as a pair. -/
def extract_control_arguments (arguments : Arguments) :
    Arguments × Arguments :=
  (arguments.filter (fun kv => kv.1 ∈ control_argument_keys),
   arguments.filter (fun kv => kv.1 ∉ control_argument_keys))

/-- Modelled from the spec: `make_unix_command_for_host` lives in
`pyinfra/connectors/util.py`, which is not among the embedded sources.
Per section 4.3, the synthesizer applies in order a working-directory
wrapper, an environment prefix, a privilege-elevation wrapper and finally
a shell invocation wrapper `<shell> -c <Quoted(inner command)>`, with the
shell defaulting to `sh`. -/
def make_unix_command_for_host (arguments : Arguments) (command : List Token) :
    List Token :=
  let chdirPart : List Token :=
    match lookupArg arguments "_chdir" with
    | some (ArgValue.strV d) => [Token.lit "cd", Token.lit d, Token.lit "&&"]
    | _ => []
  let envPart : List Token :=
    match lookupArg arguments "_env" with
    | some (ArgValue.strV e) => [Token.lit "export", Token.lit e, Token.lit "&&"]
    | _ => []
  let sudoPart : List Token :=
    match lookupArg arguments "_sudo" with
    | some (ArgValue.boolV true) => [Token.lit "sudo", Token.lit "-H"]
    | _ => []
  let shell : String :=
    match lookupArg arguments "_shell" with
    | some (ArgValue.strV sh) => sh
    | _ => "sh"
  sudoPart ++ [Token.lit shell, Token.lit "-c",
    Token.quotedCmd (chdirPart ++ envPart ++ command)]

/-- The declared success-exit-code set of an options mapping, defaulting
to `[0]` when the `_success_exit_codes` key is absent. -/
def success_exit_codes_of (arguments : Arguments) : List Int :=
  match lookupArg arguments "_success_exit_codes" with
  | some (ArgValue.ints l) => l
  | _ => [0]

/-- Modelled from the spec: `LocalConnector.run_shell_command` lives in
`pyinfra/connectors/local.py`, which is not among the embedded sources.
Per sections 4.4 and 4.5 it spawns the child process and returns
`(exitCode ∈ successExitCodes, output)`; it never raises for an exit code
inside the declared success set.  The child process itself is the
environment: its exit code and captured output are parameters. -/
def local_run_shell_command (_command : List Token) (arguments : Arguments)
    (childExit : Int) (childOut : CommandOutput) : Bool × CommandOutput :=
  (decide (childExit ∈ success_exit_codes_of arguments), childOut)

/-- Per-host data read by the AppJail connector: the truthiness of
`host.data.get("noclean")`, and the in-context / host-side users
(`some u` standing for a truthy value `u` under the key). -/
structure HostData where
  noclean : Bool
  jail_user : Option String
  host_user : Option String

/-- Everything `AppJailConnector.run_shell_command` computes: the
synthesized in-context command, the outer token list, the options mapping
handed to the inner local connector, the options mapping handed to the
command synthesizer, and the returned pair. -/
structure RunShellResult where
  innerCommand : List Token
  outerArgs : List Token
  forwardedArguments : Arguments
  synthArguments : Arguments
  success : Bool
  output : CommandOutput

/-- Embedding of `AppJailConnector.run_shell_command`
(pyinfra/connectors/appjail.py, lines 88-120): extract the control
arguments, synthesize the in-context command from the remaining options,
wrap it as `appjail cmd jexec <jail> [-l] [-U u | -u u] sh -c <quoted>`,
and forward to the inner local connector with the extracted control
options.  The child process exit code and output are environment
parameters. -/
def run_shell_command (jail : String) (hd : HostData) (command : List Token)
    (arguments : Arguments) (childExit : Int) (childOut : CommandOutput) :
    RunShellResult :=
  let split := extract_control_arguments arguments
  let local_arguments := split.1
  let remaining := split.2
  let command2 := make_unix_command_for_host remaining command
  let quoted_command := Token.quotedCmd command2
  let args0 : List Token :=
    [Token.lit "appjail", Token.lit "cmd", Token.lit "jexec", Token.lit jail]
  let args1 := if hd.noclean then args0 ++ [Token.lit "-l"] else args0
  let args2 :=
    match hd.jail_user with
    | some u => args1 ++ [Token.lit "-U", Token.lit u]
    | Option.none =>
      match hd.host_user with
      | some u => args1 ++ [Token.lit "-u", Token.lit u]
      | Option.none => args1
  let args3 := args2 ++ [Token.lit "sh", Token.lit "-c", quoted_command]
  let res := local_run_shell_command args3 local_arguments childExit childOut
  { innerCommand := command2
    outerArgs := args3
    forwardedArguments := local_arguments
    synthArguments := remaining
    success := res.1
    output := res.2 }

/-- Controller filesystem: existing files as (path, content) pairs, first
binding wins on read. -/
abbrev FS := List (String × String)

/-- Create or overwrite a file. -/
def writeFile (fs : FS) (p d : String) : FS := (p, d) :: fs

/-- Delete every binding of a path (`os.remove`). -/
def removeFile (fs : FS) (p : String) : FS :=
  fs.filter (fun kv => kv.1 ≠ p)

/-- Whether a path exists. -/
def fileExists (fs : FS) (p : String) : Bool :=
  fs.any (fun kv => kv.1 = p)

/-- Content of a path, if it exists. -/
def readFile (fs : FS) (p : String) : Option String :=
  (fs.find? (fun kv => kv.1 = p)).map (fun kv => kv.2)

/-- Observable steps of a put/get call, in execution order. -/
inductive FileEvent where
  | mkstempEv (tmp : String)
  | writeTemp (tmp : String) (data : String)
  | shellEv (cmd : String)
  | copyEv (src dst : String)
  | sinkWrite (data : String)
  | removeEv (tmp : String)
deriving Repr, DecidableEq

/-- Failure of a transfer call: the `IOError` raised on a non-success copy
exit (carrying the captured stderr lines), or an exception that escaped
the write/read step and propagated through the `finally` block. -/
inductive TransferError where
  | ioError (stderr : List String)
  | escaped (msg : String)
deriving Repr, DecidableEq

/-- Result of `AppJailConnector.put_file`. -/
structure PutFileResult where
  trace : List FileEvent
  fs : FS
  result : Except TransferError Bool

/-- Embedding of `AppJailConnector.put_file`
(pyinfra/connectors/appjail.py, lines 122-170): create a staging temp
file via `mkstemp`, write the source content into it (this step may raise,
modelled by `writeExc`), probe the jail root with
`appjail cmd local <jail> pwd`, copy the temp file to
`<jailDir>/<remote>` through the inner local connector with default
options, remove the temp file in a `finally` block on every path, and
raise `IOError(output.stderr)` when the copy status is not a success. -/
def put_file (fs0 : FS) (jail tmp srcData : String)
    (writeExc : Option String) (jailDir remote : String)
    (copyExit : Int) (copyOut : CommandOutput) : PutFileResult :=
  let fs1 := writeFile fs0 tmp ""
  match writeExc with
  | some e =>
      { trace := [FileEvent.mkstempEv tmp, FileEvent.removeEv tmp]
        fs := removeFile fs1 tmp
        result := Except.error (TransferError.escaped e) }
  | Option.none =>
      let fs2 := writeFile fs1 tmp srcData
      let pwdCmd := "appjail cmd local " ++ jail ++ " pwd"
      let dst := jailDir ++ "/" ++ remote
      let sr := local_run_shell_command
        [Token.lit "cp", Token.lit tmp, Token.lit dst] [] copyExit copyOut
      let status := sr.1
      let output := sr.2
      let fs3 := if status then writeFile fs2 dst srcData else fs2
      let fs4 := removeFile fs3 tmp
      let tr := [FileEvent.mkstempEv tmp, FileEvent.writeTemp tmp srcData,
        FileEvent.shellEv pwdCmd, FileEvent.copyEv tmp dst,
        FileEvent.removeEv tmp]
      if status then
        { trace := tr, fs := fs4, result := Except.ok true }
      else
        { trace := tr, fs := fs4,
          result := Except.error (TransferError.ioError output.stderr) }

/-- Result of `AppJailConnector.get_file`: the final filesystem, what (if
anything) was streamed into the destination sink, and the outcome. -/
structure GetFileResult where
  trace : List FileEvent
  fs : FS
  sink : Option String
  result : Except TransferError Bool

/-- Embedding of `AppJailConnector.get_file`
(pyinfra/connectors/appjail.py, lines 172-223): create a staging temp
file, probe the jail root, copy `<jailDir>/<remote>` onto the temp file
through the inner local connector with default options (on success the
temp file then holds the remote content `remoteData`), open the temp file
and stream its content into the destination sink (this step may raise,
modelled by `readExc`), remove the temp file in a `finally` block on
every path, and only then raise `IOError(output.stderr)` when the copy
status is not a success. -/
def get_file (fs0 : FS) (jail tmp remote jailDir remoteData : String)
    (copyExit : Int) (copyOut : CommandOutput)
    (readExc : Option String) : GetFileResult :=
  let fs1 := writeFile fs0 tmp ""
  let pwdCmd := "appjail cmd local " ++ jail ++ " pwd"
  let srcPath := jailDir ++ "/" ++ remote
  let sr := local_run_shell_command
    [Token.lit "cp", Token.lit srcPath, Token.lit tmp] [] copyExit copyOut
  let status := sr.1
  let output := sr.2
  let fs2 := if status then writeFile fs1 tmp remoteData else fs1
  match readExc with
  | some e =>
      { trace := [FileEvent.mkstempEv tmp, FileEvent.shellEv pwdCmd,
          FileEvent.copyEv srcPath tmp, FileEvent.removeEv tmp]
        fs := removeFile fs2 tmp
        sink := Option.none
        result := Except.error (TransferError.escaped e) }
  | Option.none =>
      let tempContent := (readFile fs2 tmp).getD ""
      let fs3 := removeFile fs2 tmp
      let tr := [FileEvent.mkstempEv tmp, FileEvent.shellEv pwdCmd,
        FileEvent.copyEv srcPath tmp, FileEvent.sinkWrite tempContent,
        FileEvent.removeEv tmp]
      if status then
        { trace := tr, fs := fs3, sink := some tempContent,
          result := Except.ok true }
      else
        { trace := tr, fs := fs3, sink := some tempContent,
          result := Except.error (TransferError.ioError output.stderr) }

/-- Observable steps of `connect`, in execution order. -/
inductive ConnEvent where
  | localConnect
  | shellEv (cmd : String)
deriving Repr, DecidableEq

/-- Result of `AppJailConnector.connect`: the steps performed and either
the recorded jail identifier (the `self.jail = jail` assignment, i.e. the
Connected state) or the message of the raised `ConnectError`. -/
structure ConnectResult where
  trace : List ConnEvent
  outcome : Except String String

/-- Embedding of `AppJailConnector.connect`
(pyinfra/connectors/appjail.py, lines 75-86): connect the inner local
connector first, probe the jail with `appjail status <jail>` through
`local.shell` (whose outcome — success, or a `PyinfraError` with message
`msg` — is the environment parameter `probe`), re-raise a probe failure
as `ConnectError(err.args[0])`, and record the jail identifier only on
success. -/
def connect (jail : String) (probe : Except String Unit) : ConnectResult :=
  let cmd := "appjail status " ++ jail
  match probe with
  | Except.ok _ =>
      { trace := [ConnEvent.localConnect, ConnEvent.shellEv cmd]
        outcome := Except.ok jail }
  | Except.error msg =>
      { trace := [ConnEvent.localConnect, ConnEvent.shellEv cmd]
        outcome := Except.error msg }

/-- A single-quote character, used in the f-string noop messages. -/
def sq : String := String.mk [Char.ofNat 39]

/-- The `ServiceStates` enum of pyinfra/operations/freebsd/service.py. -/
inductive ServiceStates where
  | SRV_STARTED
  | SRV_STOPPED
  | SRV_RESTARTED
  | SRV_RELOADED
  | SRV_CUSTOM
deriving Repr, DecidableEq

/-- The `command` argument of the service operation:
`Optional[Union[str, List[str]]]` in the Python signature. -/
inductive ServiceCommandArg where
  | str (s : String)
  | list (l : List String)
  | noneV
deriving Repr

/-- Outcome of one operation body: a `host.noop(msg)` call followed by an
early return, or a yielded `StringCommand(*args)`. -/
inductive OpResult where
  | noop (msg : String)
  | cmd (args : List Token)
deriving Repr

/-- Embedding of the `service` operation
(pyinfra/operations/freebsd/service.py, lines 25-117).  The two facts the
body reads (`ServiceScript` and `ServiceStatus`) are the environment
parameters `hasScript` and `running`.  In the `SRV_CUSTOM` branch the
Python body runs `if not isinstance(command, str): command = [command]`
and then `args.extend(QuoteString(c) for c in command)`, so a string
command is iterated character by character, a list is wrapped into a
one-element list around the list object, and `None` becomes a
one-element list around `None`. -/
def service (srvname : String) (jail : Option String) (state : ServiceStates)
    (command : ServiceCommandArg) (environment : Option (List String))
    (verbose : Bool) (hasScript running : Bool) : OpResult :=
  if !hasScript then
    OpResult.noop ("Cannot find rc(8) script " ++ sq ++ srvname ++ sq)
  else
    let args : List Token := [Token.lit "service"]
    let args := if verbose then args ++ [Token.lit "-v"] else args
    let args :=
      match jail with
      | some j => args ++ [Token.lit "-j", Token.quoted j]
      | Option.none => args
    let args :=
      match environment with
      | some es => args ++ es.flatMap (fun v => [Token.lit "-E", Token.quoted v])
      | Option.none => args
    match state with
    | ServiceStates.SRV_STARTED =>
        if running then
          OpResult.noop ("Service " ++ sq ++ srvname ++ sq ++ " already started")
        else
          OpResult.cmd (args ++ [Token.quoted srvname, Token.lit "start"])
    | ServiceStates.SRV_STOPPED =>
        if !running then
          OpResult.noop ("Service " ++ sq ++ srvname ++ sq ++ " already stopped")
        else
          OpResult.cmd (args ++ [Token.quoted srvname, Token.lit "stop"])
    | ServiceStates.SRV_RESTARTED =>
        OpResult.cmd (args ++ [Token.quoted srvname, Token.lit "restart"])
    | ServiceStates.SRV_RELOADED =>
        OpResult.cmd (args ++ [Token.quoted srvname, Token.lit "reload"])
    | ServiceStates.SRV_CUSTOM =>
        let args := args ++ [Token.quoted srvname]
        let cmdTokens :=
          match command with
          | ServiceCommandArg.str s =>
              s.data.map (fun c => Token.quoted (String.mk [c]))
          | ServiceCommandArg.list l => [Token.quotedList l]
          | ServiceCommandArg.noneV => [Token.quotedNone]
        OpResult.cmd (args ++ cmdTokens)

/-- The `SysrcCommands` enum of pyinfra/operations/freebsd/sysrc.py. -/
inductive SysrcCommands where
  | SYSRC_ADD
  | SYSRC_SUB
  | SYSRC_SET
  | SYSRC_DEL
deriving Repr, DecidableEq

/-- Embedding of the `sysrc` operation
(pyinfra/operations/freebsd/sysrc.py, lines 24-94).  The `Sysrc` fact the
body reads is the environment parameter `factPresent`. -/
def sysrc (parameter value : String) (jail : Option String)
    (command : SysrcCommands) (overwrite : Bool) (factPresent : Bool) :
    OpResult :=
  let args : List Token := [Token.lit "sysrc", Token.lit "-i"]
  let signRes : Except String String :=
    match command with
    | SysrcCommands.SYSRC_DEL =>
        if !factPresent then
          Except.error ("Cannot find sysrc(8) parameter " ++ sq ++ parameter ++ sq)
        else Except.ok "="
    | SysrcCommands.SYSRC_SET =>
        if !overwrite && factPresent then
          Except.error
            ("sysrc(8) parameter " ++ sq ++ parameter ++ sq ++ " already set")
        else Except.ok "="
    | SysrcCommands.SYSRC_ADD => Except.ok "+="
    | SysrcCommands.SYSRC_SUB => Except.ok "-="
  match signRes with
  | Except.error msg => OpResult.noop msg
  | Except.ok sign =>
      let args :=
        match jail with
        | some j => args ++ [Token.lit "-j", Token.quoted j]
        | Option.none => args
      OpResult.cmd
        (args ++ [Token.lit "--", Token.quoted (parameter ++ sign ++ value)])

/-! ### Helper lemmas -/

theorem lookupArg_extract_fst (args : Arguments) (k : String)
    (hk : k ∈ control_argument_keys) :
    lookupArg (extract_control_arguments args).1 k = lookupArg args k := by
  unfold extract_control_arguments
  induction args with
  | nil => rfl
  | cons kv rest ih =>
      by_cases h1 : kv.1 = k
      · have hp : kv.1 ∈ control_argument_keys := h1 ▸ hk
        simp [List.filter_cons, hp, hk, lookupArg, h1]
      · by_cases h2 : kv.1 ∈ control_argument_keys
        · simpa [List.filter_cons, h2, lookupArg, h1] using ih
        · simpa [List.filter_cons, h2, lookupArg, h1] using ih

theorem lookupArg_filter_ne (args : Arguments) (k : String) :
    lookupArg (args.filter (fun kv => kv.1 ≠ k)) k = Option.none := by
  induction args with
  | nil => rfl
  | cons kv rest ih =>
      by_cases h : kv.1 = k
      · simp only [List.filter_cons, h]
        simpa using ih
      · simp only [List.filter_cons]
        simpa [h, lookupArg] using ih

theorem success_exit_codes_extract (args : Arguments) :
    success_exit_codes_of (extract_control_arguments args).1
      = success_exit_codes_of args := by
  unfold success_exit_codes_of
  rw [lookupArg_extract_fst args "_success_exit_codes" (by simp [control_argument_keys])]

theorem fileExists_removeFile (fs : FS) (p : String) :
    fileExists (removeFile fs p) p = false := by
  induction fs with
  | nil => rfl
  | cons kv rest ih =>
      by_cases h : kv.1 = p
      · simp [removeFile, fileExists, List.filter_cons, h]
      · simp [removeFile, fileExists, List.filter_cons, List.any_cons, h]

/-! ### Claim theorems -/

/-- C1: every command run through `AppJailConnector.run_shell_command`
produces an outer command of the shape
`appjail cmd jexec <jail> [-l] [-U u | -u u] sh -c <quoted inner command>`,
where the `-l` flag is present iff the truthiness of the host's `noclean`
datum, and the user flag is `-U <jail_user>` when an in-context user is
set, else `-u <host_user>` when a host-side user is set, else absent. -/
theorem appjail_outer_command_shape (jail : String) (hd : HostData)
    (command : List Token) (arguments : Arguments) (childExit : Int)
    (childOut : CommandOutput) :
    (run_shell_command jail hd command arguments childExit childOut).outerArgs =
      [Token.lit "appjail", Token.lit "cmd", Token.lit "jexec", Token.lit jail]
      ++ (if hd.noclean then [Token.lit "-l"] else [])
      ++ (match hd.jail_user with
          | some u => [Token.lit "-U", Token.lit u]
          | Option.none =>
            match hd.host_user with
            | some u => [Token.lit "-u", Token.lit u]
            | Option.none => [])
      ++ [Token.lit "sh", Token.lit "-c",
          Token.quotedCmd
            (make_unix_command_for_host (extract_control_arguments arguments).2
              command)] := by
  rcases hd with ⟨nc, ju, hu⟩
  cases nc <;> cases ju <;> cases hu <;>
    simp [run_shell_command, List.append_assoc]

/-- C3: the boolean returned by the connector equals membership of the
child exit code in the declared success-exit-code set; when the
`_success_exit_codes` option is absent the set defaults to `[0]`, so the
default success condition is `exit = 0`.  The connector is a total
function returning the boolean — it never raises for a non-zero exit
inside the declared set. -/
theorem appjail_exit_code_success_mapping (jail : String) (hd : HostData)
    (command : List Token) (arguments : Arguments) (childExit : Int)
    (childOut : CommandOutput) :
    (run_shell_command jail hd command arguments childExit childOut).success
      = decide (childExit ∈ success_exit_codes_of arguments)
    ∧ success_exit_codes_of
        (arguments.filter (fun kv => kv.1 ≠ "_success_exit_codes")) = [0]
    ∧ (run_shell_command jail hd command
          (arguments.filter (fun kv => kv.1 ≠ "_success_exit_codes"))
          childExit childOut).success
        = decide (childExit = 0) := by
  have key : ∀ a : Arguments,
      (run_shell_command jail hd command a childExit childOut).success
        = decide (childExit ∈ success_exit_codes_of a) := by
    intro a
    show decide (childExit ∈ success_exit_codes_of (extract_control_arguments a).1)
      = decide (childExit ∈ success_exit_codes_of a)
    rw [success_exit_codes_extract]
  have hdef : success_exit_codes_of
      (arguments.filter (fun kv => kv.1 ≠ "_success_exit_codes")) = [0] := by
    unfold success_exit_codes_of
    rw [lookupArg_filter_ne]
  refine ⟨key arguments, hdef, ?_⟩
  rw [key, hdef]
  simp

/-- Host data with no truthy `noclean`, `jail_user` or `host_user`. -/
def hd0 : HostData :=
  { noclean := false, jail_user := Option.none, host_user := Option.none }

/-- An empty captured output with exit code 0. -/
def out0 : CommandOutput := { stdout := [], stderr := [], exitCode := 0 }

/-- The command of the test scenario, `echo hoi`. -/
def cmd0 : List Token := [Token.lit "echo", Token.lit "hoi"]

/-- An options mapping declaring the success set `[1]`. -/
def a1 : Arguments := [("_success_exit_codes", ArgValue.ints [1])]

/-- C7 counterexample: at the concrete options mapping
`{_success_exit_codes: [1]}` the mapping handed to the inner connector's
`run_shell_command` is the extracted control part, not the remainder —
the remainder here is empty while the inner connector receives the
success-exit-codes entry.  This refutes the claim that the inner
connector receives exactly the remaining (non-local) options. -/
theorem appjail_forwarded_not_remainder :
    ¬ ((run_shell_command "not-a-jail" hd0 cmd0 a1 1 out0).forwardedArguments
        = (extract_control_arguments a1).2) := by
  decide

/-- C7 amended: `run_shell_command` splits its options mapping into two
parts whose key sets are disjoint and which together exhaust the mapping;
the extracted control part is what is forwarded to the inner connector's
`run_shell_command`, and the remainder is what is used to synthesize the
in-context command. -/
theorem appjail_option_split (jail : String) (hd : HostData)
    (command : List Token) (arguments : Arguments) (childExit : Int)
    (childOut : CommandOutput) :
    (run_shell_command jail hd command arguments childExit childOut).forwardedArguments
      = (extract_control_arguments arguments).1
    ∧ (run_shell_command jail hd command arguments childExit childOut).synthArguments
      = (extract_control_arguments arguments).2
    ∧ (∀ kv1 ∈ (extract_control_arguments arguments).1,
        ∀ kv2 ∈ (extract_control_arguments arguments).2, kv1.1 ≠ kv2.1)
    ∧ (∀ kv, kv ∈ arguments ↔
        (kv ∈ (extract_control_arguments arguments).1
          ∨ kv ∈ (extract_control_arguments arguments).2)) := by
  refine ⟨rfl, rfl, ?_, ?_⟩
  · intro kv1 h1 kv2 h2
    rw [extract_control_arguments, List.mem_filter] at h1 h2
    intro hkeys
    have h1k : kv1.1 ∈ control_argument_keys := by simpa using h1.2
    have h2k : kv2.1 ∉ control_argument_keys := by simpa using h2.2
    exact h2k (hkeys ▸ h1k)
  · intro kv
    rw [extract_control_arguments]
    simp only [List.mem_filter]
    by_cases hm : kv.1 ∈ control_argument_keys
    · simp [hm]
    · simp [hm]

/-- C7 amended, witness: the split at the concrete options mapping
`{_success_exit_codes: [1]}`. -/
theorem appjail_option_split_witness :
    (run_shell_command "not-a-jail" hd0 cmd0 a1 1 out0).forwardedArguments
      = (extract_control_arguments a1).1
    ∧ (run_shell_command "not-a-jail" hd0 cmd0 a1 1 out0).synthArguments
      = (extract_control_arguments a1).2
    ∧ (∀ kv1 ∈ (extract_control_arguments a1).1,
        ∀ kv2 ∈ (extract_control_arguments a1).2, kv1.1 ≠ kv2.1)
    ∧ (∀ kv, kv ∈ a1 ↔
        (kv ∈ (extract_control_arguments a1).1
          ∨ kv ∈ (extract_control_arguments a1).2)) :=
  appjail_option_split "not-a-jail" hd0 cmd0 a1 1 out0

/-- C4: `connect` performs the inner-connector connection first and then
the `appjail status <jail>` probe; a probe failure with message `msg` is
re-raised as a `ConnectError` carrying `msg`, and only a successful probe
yields the Connected state with the validated jail recorded. -/
theorem connect_validates_then_records (jail : String)
    (probe : Except String Unit) :
    (connect jail probe).trace
      = [ConnEvent.localConnect, ConnEvent.shellEv ("appjail status " ++ jail)]
    ∧ (∀ msg, probe = Except.error msg →
        (connect jail probe).outcome = Except.error msg)
    ∧ (probe = Except.ok () →
        (connect jail probe).outcome = Except.ok jail) := by
  refine ⟨?_, ?_, ?_⟩ <;> cases probe <;> simp [connect]

/-- C4 witness: connecting to `not-a-jail` with a successful probe records
the jail. -/
theorem connect_validates_then_records_witness :
    (connect "not-a-jail" (Except.ok ())).outcome = Except.ok "not-a-jail" :=
  (connect_validates_then_records "not-a-jail" (Except.ok ())).2.2 rfl

/-- C6: requesting `SRV_STARTED` for a service whose status fact reports
it running yields the `already started` no-op rather than a command; and
`SYSRC_SET` without `overwrite` on a parameter whose fact reports a value
yields the `already set` no-op rather than a command. -/
theorem idempotent_noops (srvname : String) (jail : Option String)
    (command : ServiceCommandArg) (environment : Option (List String))
    (verbose running : Bool) (parameter value : String)
    (sjail : Option String) (factPresent : Bool) :
    (running = true →
      service srvname jail ServiceStates.SRV_STARTED command environment
          verbose true running
        = OpResult.noop ("Service " ++ sq ++ srvname ++ sq ++ " already started"))
    ∧ (factPresent = true →
      sysrc parameter value sjail SysrcCommands.SYSRC_SET false factPresent
        = OpResult.noop
            ("sysrc(8) parameter " ++ sq ++ parameter ++ sq ++ " already set")) := by
  constructor
  · intro h; subst h; simp [service]
  · intro h; subst h; simp [sysrc]

/-- C6 witness: the no-ops at a concrete running service and a concrete
already-set parameter. -/
theorem idempotent_noops_witness :
    service "beanstalkd" Option.none ServiceStates.SRV_STARTED
        ServiceCommandArg.noneV Option.none false true true
      = OpResult.noop ("Service " ++ sq ++ "beanstalkd" ++ sq ++ " already started")
    ∧ sysrc "beanstalkd_enable" "YES" Option.none SysrcCommands.SYSRC_SET
        false true
      = OpResult.noop
          ("sysrc(8) parameter " ++ sq ++ "beanstalkd_enable" ++ sq ++ " already set") :=
  ⟨(idempotent_noops "beanstalkd" Option.none ServiceCommandArg.noneV
      Option.none false true "beanstalkd_enable" "YES" Option.none true).1 rfl,
   (idempotent_noops "beanstalkd" Option.none ServiceCommandArg.noneV
      Option.none false true "beanstalkd_enable" "YES" Option.none true).2 rfl⟩

/-- C2: for every `put_file` and every `get_file` execution — success,
transfer error, or an exception escaping the write/read step — the local
staging temp file does not exist when the call returns, thanks to the
`finally` removal. -/
theorem transfer_temp_file_cleanup (fs0 : FS) (jail tmp srcData : String)
    (writeExc : Option String) (jailDir remote : String) (copyExit : Int)
    (copyOut : CommandOutput) (fs0' : FS)
    (jail' tmp' remote' jailDir' remoteData' : String) (copyExit' : Int)
    (copyOut' : CommandOutput) (readExc : Option String) :
    fileExists
      (put_file fs0 jail tmp srcData writeExc jailDir remote copyExit copyOut).fs
      tmp = false
    ∧ fileExists
      (get_file fs0' jail' tmp' remote' jailDir' remoteData' copyExit' copyOut'
        readExc).fs tmp' = false := by
  constructor
  · unfold put_file
    cases writeExc with
    | some e => exact fileExists_removeFile _ _
    | none =>
        simp only []
        split
        · exact fileExists_removeFile _ _
        · exact fileExists_removeFile _ _
  · unfold get_file
    cases readExc with
    | some e => exact fileExists_removeFile _ _
    | none =>
        simp only []
        split
        · exact fileExists_removeFile _ _
        · exact fileExists_removeFile _ _

/-- C5: with the write/read step not raising, `put_file` and `get_file`
raise `IOError(output.stderr)` exactly when the copy exit code is outside
the (default) success set, and return `true` when the copy succeeds. -/
theorem transfer_error_iff_copy_failure (fs0 : FS)
    (jail tmp srcData jailDir remote : String) (copyExit : Int)
    (copyOut : CommandOutput) (fs0' : FS)
    (jail' tmp' remote' jailDir' remoteData' : String) (copyExit' : Int)
    (copyOut' : CommandOutput) :
    ((put_file fs0 jail tmp srcData Option.none jailDir remote copyExit
        copyOut).result
      = Except.error (TransferError.ioError copyOut.stderr)
      ↔ copyExit ∉ success_exit_codes_of [])
    ∧ (copyExit ∈ success_exit_codes_of [] →
        (put_file fs0 jail tmp srcData Option.none jailDir remote copyExit
          copyOut).result = Except.ok true)
    ∧ ((get_file fs0' jail' tmp' remote' jailDir' remoteData' copyExit'
          copyOut' Option.none).result
        = Except.error (TransferError.ioError copyOut'.stderr)
        ↔ copyExit' ∉ success_exit_codes_of [])
    ∧ (copyExit' ∈ success_exit_codes_of [] →
        (get_file fs0' jail' tmp' remote' jailDir' remoteData' copyExit'
          copyOut' Option.none).result = Except.ok true) := by
  refine ⟨?_, ?_, ?_, ?_⟩
  · by_cases h : copyExit ∈ success_exit_codes_of [] <;>
      simp [put_file, local_run_shell_command, h]
  · intro h; simp [put_file, local_run_shell_command, h]
  · by_cases h : copyExit' ∈ success_exit_codes_of [] <;>
      simp [get_file, local_run_shell_command, h]
  · intro h; simp [get_file, local_run_shell_command, h]

/-- C5 witness: at copy exit code 1 both calls raise the `IOError`
carrying stderr, and at exit code 1 the success-set membership fails. -/
theorem transfer_error_iff_copy_failure_witness :
    ((put_file [] "not-a-jail" "__tempfile__" "test!" Option.none
        "/not-a-jail" "not-another-file" 1 out0).result
      = Except.error (TransferError.ioError out0.stderr)
      ↔ (1 : Int) ∉ success_exit_codes_of [])
    ∧ ((1 : Int) ∈ success_exit_codes_of [] →
        (put_file [] "not-a-jail" "__tempfile__" "test!" Option.none
          "/not-a-jail" "not-another-file" 1 out0).result = Except.ok true)
    ∧ ((get_file [] "not-a-jail" "__tempfile__" "not-a-file" "/not-a-jail"
          "test!" 1 out0 Option.none).result
        = Except.error (TransferError.ioError out0.stderr)
        ↔ (1 : Int) ∉ success_exit_codes_of [])
    ∧ ((1 : Int) ∈ success_exit_codes_of [] →
        (get_file [] "not-a-jail" "__tempfile__" "not-a-file" "/not-a-jail"
          "test!" 1 out0 Option.none).result = Except.ok true) :=
  transfer_error_iff_copy_failure [] "not-a-jail" "__tempfile__" "test!"
    "/not-a-jail" "not-another-file" 1 out0 [] "not-a-jail" "__tempfile__"
    "not-a-file" "/not-a-jail" "test!" 1 out0

/-- C8: `put_file` performs, in order, the temp-file creation, the write
of the source content into the temp file, the `pwd` probe inside the
jail, and the copy from the temp file to the jail root prefixed to the
remote destination; concretely, root `/not-a-jail` and destination
`not-another-file` yield a copy to `/not-a-jail/not-another-file`. -/
theorem put_file_stage_probe_copy (fs0 : FS)
    (jail tmp srcData jailDir remote : String) (copyExit : Int)
    (copyOut : CommandOutput) :
    (put_file fs0 jail tmp srcData Option.none jailDir remote copyExit
        copyOut).trace
      = [FileEvent.mkstempEv tmp, FileEvent.writeTemp tmp srcData,
         FileEvent.shellEv ("appjail cmd local " ++ jail ++ " pwd"),
         FileEvent.copyEv tmp (jailDir ++ "/" ++ remote),
         FileEvent.removeEv tmp]
    ∧ (put_file fs0 jail tmp srcData Option.none "/not-a-jail"
          "not-another-file" copyExit copyOut).trace.contains
        (FileEvent.copyEv tmp "/not-a-jail/not-another-file") = true := by
  constructor
  · unfold put_file
    simp only []
    split <;> rfl
  · unfold put_file
    simp only []
    split <;> simp [List.contains]

/-- C9: when the copy step of `get_file` fails (and the read step does
not raise), the destination sink is nevertheless written — with the
staged temp file's content, here the empty content of the fresh temp
file — before the `IOError` carrying the copy's stderr is raised: the
sink-write event precedes the status check on the trace and the returned
sink is populated alongside the error. -/
theorem get_file_writes_sink_before_error (fs0 : FS)
    (jail tmp remote jailDir remoteData : String) (copyExit : Int)
    (copyOut : CommandOutput)
    (h : copyExit ∉ success_exit_codes_of []) :
    (get_file fs0 jail tmp remote jailDir remoteData copyExit copyOut
        Option.none).sink = some ""
    ∧ (get_file fs0 jail tmp remote jailDir remoteData copyExit copyOut
        Option.none).result
      = Except.error (TransferError.ioError copyOut.stderr)
    ∧ (get_file fs0 jail tmp remote jailDir remoteData copyExit copyOut
        Option.none).trace
      = [FileEvent.mkstempEv tmp,
         FileEvent.shellEv ("appjail cmd local " ++ jail ++ " pwd"),
         FileEvent.copyEv (jailDir ++ "/" ++ remote) tmp,
         FileEvent.sinkWrite "", FileEvent.removeEv tmp] := by
  refine ⟨?_, ?_, ?_⟩ <;>
    simp [get_file, local_run_shell_command, h, readFile, writeFile]

/-- C9 witness: a failing copy (exit code 1) still writes the sink. -/
theorem get_file_writes_sink_before_error_witness :
    (get_file [] "not-a-jail" "__tempfile__" "not-a-file" "/not-a-jail"
        "test!" 1 out0 Option.none).sink = some ""
    ∧ (get_file [] "not-a-jail" "__tempfile__" "not-a-file" "/not-a-jail"
        "test!" 1 out0 Option.none).result
      = Except.error (TransferError.ioError out0.stderr)
    ∧ (get_file [] "not-a-jail" "__tempfile__" "not-a-file" "/not-a-jail"
        "test!" 1 out0 Option.none).trace
      = [FileEvent.mkstempEv "__tempfile__",
         FileEvent.shellEv ("appjail cmd local " ++ "not-a-jail" ++ " pwd"),
         FileEvent.copyEv ("/not-a-jail" ++ "/" ++ "not-a-file") "__tempfile__",
         FileEvent.sinkWrite "", FileEvent.removeEv "__tempfile__"] :=
  get_file_writes_sink_before_error [] "not-a-jail" "__tempfile__"
    "not-a-file" "/not-a-jail" "test!" 1 out0 (by decide)

/-- C10: with `SRV_CUSTOM` and a string-valued `command`, the service
operation emits one separately quoted token per character of the command
string (the string is iterated character by character), and — whenever
the string does not have length one — the result differs from emitting
the whole string as a single quoted token. -/
theorem srv_custom_string_iterated (srvname s : String) (jail : Option String)
    (environment : Option (List String)) (verbose running : Bool)
    (h : s.length ≠ 1) :
    ∃ pre : List Token,
      service srvname jail ServiceStates.SRV_CUSTOM (ServiceCommandArg.str s)
          environment verbose true running
        = OpResult.cmd (pre ++ Token.quoted srvname
            :: s.data.map (fun c => Token.quoted (String.mk [c])))
      ∧ service srvname jail ServiceStates.SRV_CUSTOM (ServiceCommandArg.str s)
          environment verbose true running
        ≠ OpResult.cmd (pre ++ [Token.quoted srvname, Token.quoted s]) := by
  obtain ⟨pre, h1⟩ : ∃ pre : List Token,
      service srvname jail ServiceStates.SRV_CUSTOM (ServiceCommandArg.str s)
          environment verbose true running
        = OpResult.cmd (pre ++ Token.quoted srvname
            :: s.data.map (fun c => Token.quoted (String.mk [c]))) := by
    refine ⟨[Token.lit "service"]
        ++ (if verbose then [Token.lit "-v"] else [])
        ++ (match jail with
            | some j => [Token.lit "-j", Token.quoted j]
            | Option.none => [])
        ++ (match environment with
            | some es => es.flatMap (fun v => [Token.lit "-E", Token.quoted v])
            | Option.none => []), ?_⟩
    cases verbose <;> cases jail <;> cases environment <;>
      simp [service, List.append_assoc]
  refine ⟨pre, h1, fun heq => ?_⟩
  rw [h1] at heq
  have hlist := OpResult.cmd.inj heq
  have hlen := congrArg List.length hlist
  simp only [List.length_append, List.length_cons, List.length_map,
    List.length_nil] at hlen
  have hdata : s.data.length = 1 := by omega
  exact h hdata

/-- C10 witness: the custom command `configure` for the service `sopel`
is emitted as nine single-character quoted tokens. -/
theorem srv_custom_string_iterated_witness :
    ∃ pre : List Token,
      service "sopel" Option.none ServiceStates.SRV_CUSTOM
          (ServiceCommandArg.str "configure") Option.none false true true
        = OpResult.cmd (pre ++ Token.quoted "sopel"
            :: "configure".data.map (fun c => Token.quoted (String.mk [c])))
      ∧ service "sopel" Option.none ServiceStates.SRV_CUSTOM
          (ServiceCommandArg.str "configure") Option.none false true true
        ≠ OpResult.cmd (pre ++ [Token.quoted "sopel", Token.quoted "configure"]) :=
  srv_custom_string_iterated "sopel" "configure" Option.none Option.none
    false true (by decide)

end Pyinfra
